import Mathlib

/-!
# The Python binding of the NSG index (`pynsg/bindings.cpp`)

A shallow embedding of the class `NSGWrapper`: its four data members, its
constructor and its seven member functions, followed by the properties of the
binding that the specification states.

The efanna2e library that the binding drives (`IndexNSG`, `data_align`,
`Parameters`) is outside the file; it enters the embedding as a record of
functions, `Library`, and every theorem holds for every such record.  Each call
the binding makes to the library is also appended, with its arguments, to a log
kept next to the data members, so that "the library is (not) called" is a
statement about a value.

Floats are only copied by the binding, never computed with; a float is carried
as its 32-bit pattern, a natural number.
-/

set_option linter.dupNamespace false

namespace NSGWrapper

/-! ## Machine integers -/

/-- Conversion to `unsigned` (32 bits). -/
def to_unsigned (x : Int) : Nat := (x % 2 ^ 32).toNat

/-- Conversion to `size_t` (64 bits). -/
def to_size_t (x : Int) : Nat := (x % 2 ^ 64).toNat

/-- Conversion to `Py_ssize_t` (64 bits, two's complement). -/
def to_ssize_t (x : Int) : Int := (x + 2 ^ 63) % 2 ^ 64 - 2 ^ 63

/-- The conversion `static_cast<int>(u)` of an `unsigned` value. -/
def static_cast_int (u : Nat) : Int :=
  if u % 2 ^ 32 < 2 ^ 31 then ((u % 2 ^ 32 : Nat) : Int) else ((u % 2 ^ 32 : Nat) : Int) - 2 ^ 32

/-! ## Values exchanged with Python and with the library -/

/-- What the binding throws: `std::runtime_error` with its message, and the
`std::length_error` of `std::vector<int>(k)` for a negative `k` (converted to
`size_t` it exceeds `max_size()`). -/
inductive Error where
  | runtime_error (what : String)
  | length_error
  deriving DecidableEq, Repr

/-- A `py::array_t<float>` through its `buffer_info`: the extents `shape` (so
`ndim` is their number) and the floats lying at `ptr`, in memory order. -/
structure PyArray where
  shape : List Nat
  ptr : List Nat
  deriving DecidableEq, Repr

/-- The field `buf.ndim`. -/
def PyArray.ndim (a : PyArray) : Nat := a.shape.length

/-- The enumeration `efanna2e::Metric` as far as the binding exposes it. -/
inductive Metric where
  | L2
  deriving DecidableEq, Repr

/-- A value stored by `Parameters::Set<T>`, tagged with the `T` of the call. -/
inductive ParamValue where
  | int (v : Int)
  | unsigned (v : Nat)
  | string (v : String)
  deriving DecidableEq, Repr

/-- The parameter bag `efanna2e::Parameters`: named values. -/
abbrev Parameters := List (String × ParamValue)

/-- The call `params.Set<T>(name, value)`: the name is bound to the value,
replacing an earlier binding of the same name. -/
def Parameters.Set (p : Parameters) (name : String) (value : ParamValue) : Parameters :=
  p.filter (fun e => e.1 != name) ++ [(name, value)]

/-- One call from the binding into the library, with its arguments.  A float
pointer is the buffer it points into together with an offset counted in
floats. -/
inductive LibCall where
  | data_align (data_ori : List Nat) (point_num dim : Nat)
  | IndexNSG (dimension n : Nat) (m : Metric)
  | Build (n : Nat) (data : List Nat) (parameters : Parameters)
  | OptimizeGraph (data : List Nat)
  | SearchWithOptGraph (query : List Nat) (offset K : Nat) (parameters : Parameters)
  | Search (query : List Nat) (offset : Nat) (x : List Nat) (K : Nat) (parameters : Parameters)
  | Save (filename : String)
  | Load (filename : String)
  deriving DecidableEq, Repr

/-- The library as the binding sees it, over an index state `ι`.

* `data_align data_ori point_num dim` gives the aligned buffer and the value it
  leaves in `dim`.
* `Build`, `OptimizeGraph`, `Save`, `Load` give the index after the call.
* `SearchWithOptGraph index query offset K parameters` and
  `Search index query offset x K parameters` give the ids the call writes to
  `indices`, from position 0 on; a search reads the index and leaves it as it
  is (the index is read-only once built).

A call into the library is taken to return; the binding has no handler for
anything raised inside it. -/
structure Library (ι : Type) where
  data_align : List Nat → Nat → Nat → List Nat × Nat
  IndexNSG : Nat → Nat → Metric → ι
  Build : ι → Nat → List Nat → Parameters → ι
  OptimizeGraph : ι → List Nat → ι
  SearchWithOptGraph : ι → List Nat → Nat → Nat → Parameters → List Nat
  Search : ι → List Nat → Nat → List Nat → Nat → Parameters → List Nat
  Save : ι → String → ι
  Load : ι → String → ι

/-- The data members of `NSGWrapper`, and the log of library calls made so
far. -/
structure State (ι : Type) where
  index : ι
  dimension : Int
  aligned_dimension : Int
  n_points : Nat
  calls : List LibCall

/-- The test `buf.ndim != 2 || buf.shape[1] != dimension`, made on entry by
`align_data`, `build_index`, `optimize_graph`, `search_opt` and `search`.
`shape[1]` is read only when `ndim` is 2. -/
def shape_mismatch (buf : PyArray) (dimension : Int) : Bool :=
  buf.ndim != 2 || ((buf.shape.getD 1 0 : Nat) : Int) != dimension

/-- The vector `indices` after a library search: it is created as `k` zeroes,
the library writes `written` from position 0, and the positions the library
does not reach keep their zero. -/
def indices_after (k : Nat) (written : List Nat) : List Nat :=
  (written.map (fun u => u % 2 ^ 32)).take k ++ List.replicate (k - written.length) 0

/-- The inner loop `for (int j = 0; j < k; j++) results[i][j] =
static_cast<int>(indices[j])`, run on row `i` of `results`. -/
def store_row (indices : List Nat) (k : Nat) (row : List Int) : List Int :=
  (List.range k).foldl (fun r j => r.set j (static_cast_int (indices.getD j 0))) row

/-! ## The class -/

/-- The member `align_data`: returns the aligned buffer and `aligned_dim`. -/
def align_data {ι : Type} (lib : Library ι) (self : State ι) (data : PyArray) :
    Except Error (List Nat × Nat) × State ι :=
  if shape_mismatch data self.dimension then
    (.error (.runtime_error "Data must be 2D array with correct dimension"), self)
  else
    let num_points := data.shape.getD 0 0
    -- the copy: num_points * dimension floats from buf.ptr (the array holds that
    -- many floats, so the product does not wrap)
    let data_copy := data.ptr.take (num_points * to_size_t self.dimension)
    let temp_dim := to_unsigned self.dimension
    let r := lib.data_align data_copy (num_points % 2 ^ 32) temp_dim
    let aligned_dim := r.2 % 2 ^ 32
    (.ok (r.1, aligned_dim),
      { self with calls := self.calls ++ [.data_align data_copy (num_points % 2 ^ 32) temp_dim] })

/-- The constructor `NSGWrapper(dim, num_points, metric)`.  The division of
`(dimension + 7) / 8 * 8` truncates; each step of it is reduced to the range of
`Py_ssize_t`. -/
def NSGWrapper {ι : Type} (lib : Library ι) (dim num_points : Nat) (metric : Metric) :
    State ι :=
  let dimension := to_ssize_t dim
  let n_points := num_points % 2 ^ 64
  let aligned_dimension := to_ssize_t (Int.tdiv (to_ssize_t (dimension + 7)) 8 * 8)
  { index := lib.IndexNSG (to_size_t aligned_dimension) n_points metric
    dimension := dimension
    aligned_dimension := aligned_dimension
    n_points := n_points
    calls := [.IndexNSG (to_size_t aligned_dimension) n_points metric] }

/-- The member `build_index`. -/
def build_index {ι : Type} (lib : Library ι) (self : State ι) (data : PyArray)
    (knng_path : String) (L R C : Int) : Except Error Unit × State ι :=
  if shape_mismatch data self.dimension then
    (.error (.runtime_error "Data must be 2D array with correct dimension"), self)
  else
    let s1 := { self with n_points := data.shape.getD 0 0 }
    match align_data lib s1 data with
    | (.error e, s2) => (.error e, s2)
    | (.ok (aligned_data, temp_aligned_dim), s2) =>
      let s3 := { s2 with aligned_dimension := (temp_aligned_dim : Int) }
      let params : Parameters := []
      let params := params.Set "L" (.int L)
      let params := params.Set "R" (.int R)
      let params := params.Set "C" (.int C)
      let params := params.Set "nn_graph_path" (.string knng_path)
      (.ok (),
        { s3 with
          index := lib.Build s3.index s3.n_points aligned_data params
          calls := s3.calls ++ [.Build s3.n_points aligned_data params] })

/-- The member `optimize_graph`. -/
def optimize_graph {ι : Type} (lib : Library ι) (self : State ι) (data : PyArray) :
    Except Error Unit × State ι :=
  if shape_mismatch data self.dimension then
    (.error (.runtime_error "Data must be 2D array with correct dimension"), self)
  else
    match align_data lib self data with
    | (.error e, s1) => (.error e, s1)
    | (.ok (temp_aligned, _), s1) =>
      (.ok (),
        { s1 with
          index := lib.OptimizeGraph s1.index temp_aligned
          calls := s1.calls ++ [.OptimizeGraph temp_aligned] })

/-- The member `search_opt`.  The query pointer of iteration `i` is the aligned
buffer with the offset `i * temp_aligned_dim`; the buffer holds `n_queries`
rows of that length, so the product does not wrap. -/
def search_opt {ι : Type} (lib : Library ι) (self : State ι) (queries : PyArray)
    (k search_L : Int) : Except Error (List (List Int)) × State ι :=
  if shape_mismatch queries self.dimension then
    (.error (.runtime_error "Queries must be 2D array with correct dimension"), self)
  else
    let n_queries := queries.shape.getD 0 0
    match align_data lib self queries with
    | (.error e, s1) => (.error e, s1)
    | (.ok (aligned_queries, temp_aligned_dim), s1) =>
      if k < 0 then (.error .length_error, s1)
      else
        let results : List (List Int) := List.replicate n_queries (List.replicate k.toNat 0)
        let search_params : Parameters := []
        let search_params := search_params.Set "L_search" (.int search_L)
        let search_params := search_params.Set "P_search" (.unsigned (to_unsigned search_L))
        let out := (List.range n_queries).foldl
          (fun (acc : List (List Int) × List LibCall) i =>
            let indices := indices_after k.toNat
              (lib.SearchWithOptGraph s1.index aligned_queries (i * temp_aligned_dim)
                k.toNat search_params)
            (acc.1.set i (store_row indices k.toNat (acc.1.getD i [])),
              acc.2 ++ [.SearchWithOptGraph aligned_queries (i * temp_aligned_dim)
                k.toNat search_params]))
          (results, s1.calls)
        (.ok out.1, { s1 with calls := out.2 })

/-- The member `search`.  Both arrays go through `align_data`, the queries
first; the loop is that of `search_opt` with `Search` and the aligned data. -/
def search {ι : Type} (lib : Library ι) (self : State ι) (queries data : PyArray)
    (k search_L : Int) : Except Error (List (List Int)) × State ι :=
  if shape_mismatch queries self.dimension then
    (.error (.runtime_error "Queries must be 2D array with correct dimension"), self)
  else
    let n_queries := queries.shape.getD 0 0
    match align_data lib self queries with
    | (.error e, s1) => (.error e, s1)
    | (.ok (aligned_queries, queries_aligned_dim), s1) =>
      match align_data lib s1 data with
      | (.error e, s2) => (.error e, s2)
      | (.ok (aligned_data, _), s2) =>
        if k < 0 then (.error .length_error, s2)
        else
          let results : List (List Int) := List.replicate n_queries (List.replicate k.toNat 0)
          let search_params : Parameters := []
          let search_params := search_params.Set "L_search" (.int search_L)
          let search_params := search_params.Set "P_search" (.unsigned (to_unsigned search_L))
          let out := (List.range n_queries).foldl
            (fun (acc : List (List Int) × List LibCall) i =>
              let indices := indices_after k.toNat
                (lib.Search s2.index aligned_queries (i * queries_aligned_dim) aligned_data
                  k.toNat search_params)
              (acc.1.set i (store_row indices k.toNat (acc.1.getD i [])),
                acc.2 ++ [.Search aligned_queries (i * queries_aligned_dim) aligned_data
                  k.toNat search_params]))
            (results, s2.calls)
          (.ok out.1, { s2 with calls := out.2 })

/-- The pointer `path.c_str()` as the library reads it: the characters of the
string up to its first NUL. -/
def c_str (path : String) : String :=
  String.mk (path.data.takeWhile (fun c => c != Char.ofNat 0))

/-- The member `save_index`. -/
def save_index {ι : Type} (lib : Library ι) (self : State ι) (path : String) :
    Except Error Unit × State ι :=
  (.ok (),
    { self with
      index := lib.Save self.index (c_str path)
      calls := self.calls ++ [.Save (c_str path)] })

/-- The member `load_index`. -/
def load_index {ι : Type} (lib : Library ι) (self : State ι) (path : String) :
    Except Error Unit × State ι :=
  (.ok (),
    { self with
      index := lib.Load self.index (c_str path)
      calls := self.calls ++ [.Load (c_str path)] })

/-- An operation of the binding on a constructed object, with its arguments. -/
inductive Op where
  | build_index (data : PyArray) (knng_path : String) (L R C : Int)
  | optimize_graph (data : PyArray)
  | search_opt (queries : PyArray) (k search_L : Int)
  | search (queries data : PyArray) (k search_L : Int)
  | save_index (path : String)
  | load_index (path : String)

/-- The object after an operation, whether the operation returned or threw. -/
def Op.run {ι : Type} (lib : Library ι) (self : State ι) : Op → State ι
  | .build_index data knng_path L R C => (NSGWrapper.build_index lib self data knng_path L R C).2
  | .optimize_graph data => (NSGWrapper.optimize_graph lib self data).2
  | .search_opt queries k search_L => (NSGWrapper.search_opt lib self queries k search_L).2
  | .search queries data k search_L => (NSGWrapper.search lib self queries data k search_L).2
  | .save_index path => (NSGWrapper.save_index lib self path).2
  | .load_index path => (NSGWrapper.load_index lib self path).2

/-- The object after a sequence of operations. -/
def run_ops {ι : Type} (lib : Library ι) (self : State ι) (ops : List Op) : State ι :=
  ops.foldl (fun s op => op.run lib s) self

/-! ## A small library to run the binding on -/

/-- The index of `refLibrary`: the dimension and point count it was given, and
whether it holds a graph and an optimized layout. -/
structure RefIndex where
  dimension : Nat
  n : Nat
  has_graph : Bool
  optimized : Bool
  deriving DecidableEq, Repr

/-- Rows of `dim` floats, each followed by zeroes up to `new_dim` floats. -/
def pad_rows (data : List Nat) (dim new_dim : Nat) : Nat → List Nat
  | 0 => []
  | n + 1 =>
    pad_rows data dim new_dim n ++
      ((data.drop (n * dim)).take dim ++ List.replicate (new_dim - dim) 0)

/-- Modelled from the spec: the efanna2e library (`efanna2e/index_nsg.h`,
`efanna2e/util.h`), of which the file has only the calls.  `data_align` pads
every row with zeroes to the smallest multiple of 8 that is at least the
dimension, computed in the `unsigned` of its parameter `dim`, so its result
is below `2^32`; a search over an index of `n` points writes `min(K, n)` ids (here
the first ones).  It is used to evaluate the binding at concrete inputs. -/
def refLibrary : Library RefIndex where
  data_align data_ori point_num dim :=
    (pad_rows data_ori dim ((dim + 7) % 2 ^ 32 / 8 * 8) point_num, (dim + 7) % 2 ^ 32 / 8 * 8)
  IndexNSG dimension n _ := ⟨dimension, n, false, false⟩
  Build index n _ _ := { index with n := n, has_graph := true }
  OptimizeGraph index _ := { index with optimized := true }
  SearchWithOptGraph index _ _ K _ := List.range (min K index.n)
  Search index _ _ _ K _ := List.range (min K index.n)
  Save index _ := index
  Load index _ := { index with has_graph := true }

/-- An object of dimension 2 whose index was built over the three points
(1, 2), (3, 4) and (5, 6). -/
def builtObject : State RefIndex :=
  (build_index refLibrary (NSGWrapper refLibrary 2 3 Metric.L2)
    ⟨[3, 2], [1, 2, 3, 4, 5, 6]⟩ "knn.graph" 40 50 500).2

/-- The library `refLibrary` with searches that write the ids `2^32 - 1` and 7,
to run the conversion of the ids on an id above `2^31`. -/
def wideIdLibrary : Library RefIndex :=
  { refLibrary with
    SearchWithOptGraph := fun _ _ _ _ _ => [4294967295, 7]
    Search := fun _ _ _ _ _ _ => [4294967295, 7] }

/-! ## Properties named in the specification -/

/-- The array is not a rectangular collection of rows of length `dim`: it is
not 2-dimensional, or its second extent is not `dim`. -/
def not_rows_of (a : PyArray) (dim : Int) : Prop :=
  a.shape.length ≠ 2 ∨ ((a.shape.getD 1 0 : Nat) : Int) ≠ dim

instance (a : PyArray) (dim : Int) : Decidable (not_rows_of a dim) := by
  unfold not_rows_of; infer_instance

/-- The value `r` is the smallest multiple of 8 that is at least `d`. -/
def least_multiple_of_8 (d r : Nat) : Prop :=
  8 ∣ r ∧ d ≤ r ∧ ∀ m : Nat, 8 ∣ m → d ≤ m → r ≤ m

/-- The assumption on the library function `data_align`: the dimension it
leaves in `dim` is the smallest multiple of 8 that is at least the dimension
it was given, for every dimension whose aligned value fits the `unsigned`
parameter (`dim + 7 < 2^32`). -/
def aligns_to_8 {ι : Type} (lib : Library ι) : Prop :=
  ∀ (data_ori : List Nat) (point_num dim : Nat), dim + 7 < 2 ^ 32 →
    least_multiple_of_8 dim (lib.data_align data_ori point_num dim).2

/-- The invariant `aligned_dim ≥ dim` of the data members. -/
def dim_le_aligned {ι : Type} (s : State ι) : Prop := s.dimension ≤ s.aligned_dimension

/-- The aligned buffer and the aligned dimension that `align_data` returns for
an array that passes its test: what `data_align` gives for the copy of the
array, the dimension read back from the `unsigned` it was passed in. -/
def aligned {ι : Type} (lib : Library ι) (dimension : Int) (a : PyArray) : List Nat × Nat :=
  ((lib.data_align (a.ptr.take (a.shape.getD 0 0 * to_size_t dimension))
      (a.shape.getD 0 0 % 2 ^ 32) (to_unsigned dimension)).1,
    (lib.data_align (a.ptr.take (a.shape.getD 0 0 * to_size_t dimension))
      (a.shape.getD 0 0 % 2 ^ 32) (to_unsigned dimension)).2 % 2 ^ 32)

/-- The library call `align_data` makes for an array that passes its test. -/
def align_call (dimension : Int) (a : PyArray) : LibCall :=
  .data_align (a.ptr.take (a.shape.getD 0 0 * to_size_t dimension))
    (a.shape.getD 0 0 % 2 ^ 32) (to_unsigned dimension)

/-! ## Auxiliary lemmas -/

theorem shape_mismatch_iff (a : PyArray) (dim : Int) :
    shape_mismatch a dim = true ↔ not_rows_of a dim := by
  simp [shape_mismatch, not_rows_of, PyArray.ndim]

theorem shape_mismatch_false_iff (a : PyArray) (dim : Int) :
    shape_mismatch a dim = false ↔ ¬ not_rows_of a dim := by
  rw [← shape_mismatch_iff]; simp

theorem foldl_set_range {α : Type} (f : Nat → α) :
    ∀ (m : Nat) (l : List α), m ≤ l.length →
      (List.range m).foldl (fun r j => r.set j (f j)) l = (List.range m).map f ++ l.drop m := by
  intro m
  induction m with
  | zero => intro l _; simp
  | succ m ih =>
    intro l hl
    have hm : m < l.length := hl
    rw [List.range_succ, List.foldl_append, ih l (Nat.le_of_lt hm)]
    simp only [List.foldl_cons, List.foldl_nil, List.map_append, List.map_cons, List.map_nil]
    rw [List.drop_eq_getElem_cons hm, List.set_append_right _ _ (by simp)]
    simp only [List.length_map, List.length_range, Nat.sub_self, List.set_cons_zero,
      List.append_assoc, List.singleton_append]

theorem search_loop_eq (g : Nat → List Int → List Int) (c : Nat → LibCall) :
    ∀ (m : Nat) (res : List (List Int)) (calls : List LibCall), m ≤ res.length →
      (List.range m).foldl
          (fun (acc : List (List Int) × List LibCall) i =>
            (acc.1.set i (g i (acc.1.getD i [])), acc.2 ++ [c i]))
          (res, calls)
        = ((List.range m).map (fun i => g i (res.getD i [])) ++ res.drop m,
            calls ++ (List.range m).map c) := by
  intro m
  induction m with
  | zero => intro res calls _; simp
  | succ m ih =>
    intro res calls hl
    have hm : m < res.length := hl
    rw [List.range_succ, List.foldl_append, ih res calls (Nat.le_of_lt hm)]
    simp only [List.foldl_cons, List.foldl_nil, List.map_append, List.map_cons, List.map_nil]
    have hget : (List.map (fun i => g i (res.getD i [])) (List.range m) ++ List.drop m res).getD m []
        = res.getD m [] := by
      rw [List.getD_append_right _ _ _ _ (by simp)]
      simp [List.getD_eq_getElem?_getD]
    rw [hget, List.drop_eq_getElem_cons hm, List.set_append_right _ _ (by simp)]
    simp only [List.length_map, List.length_range, Nat.sub_self, List.set_cons_zero,
      List.append_assoc, List.singleton_append]

theorem getElem?_map_range {α : Type} (f : Nat → α) (n i : Nat) (hi : i < n) :
    ((List.range n).map f)[i]? = some (f i) := by
  rw [List.getElem?_map, List.getElem?_range hi]
  rfl

theorem length_indices_after (k : Nat) (written : List Nat) :
    (indices_after k written).length = k := by
  simp only [indices_after, List.length_append, List.length_take, List.length_map,
    List.length_replicate]
  omega

theorem map_getD_range {α : Type} (f : Nat → α) (l : List Nat) :
    (List.range l.length).map (fun j => f (l.getD j 0)) = l.map f := by
  apply List.ext_getElem
  · simp
  · intro i h1 h2
    have hi : i < l.length := by simpa using h1
    simp [List.getD_eq_getElem?_getD, List.getElem?_eq_getElem hi]

theorem store_row_eq (indices : List Nat) :
    store_row indices indices.length (List.replicate indices.length 0)
      = indices.map static_cast_int := by
  unfold store_row
  rw [foldl_set_range (fun j => static_cast_int (indices.getD j 0)) indices.length
    (List.replicate indices.length 0) (by simp)]
  rw [map_getD_range static_cast_int indices]
  simp

theorem store_row_indices_after (k : Nat) (written : List Nat) :
    store_row (indices_after k written) k (List.replicate k 0)
      = (indices_after k written).map static_cast_int := by
  have h := store_row_eq (indices_after k written)
  rw [length_indices_after] at h
  exact h

theorem set_L_search_P_search (search_L : Int) :
    Parameters.Set (Parameters.Set [] "L_search" (.int search_L)) "P_search"
        (.unsigned (to_unsigned search_L))
      = [("L_search", .int search_L), ("P_search", .unsigned (to_unsigned search_L))] := by
  simp [Parameters.Set]

theorem set_L_R_C_path (L R C : Int) (knng_path : String) :
    Parameters.Set (Parameters.Set (Parameters.Set (Parameters.Set [] "L" (.int L)) "R" (.int R))
        "C" (.int C)) "nn_graph_path" (.string knng_path)
      = [("L", .int L), ("R", .int R), ("C", .int C), ("nn_graph_path", .string knng_path)] := by
  simp [Parameters.Set]

theorem align_data_ok {ι : Type} (lib : Library ι) (s : State ι) (a : PyArray)
    (h : shape_mismatch a s.dimension = false) :
    align_data lib s a =
      (.ok ((lib.data_align (a.ptr.take (a.shape.getD 0 0 * to_size_t s.dimension))
              (a.shape.getD 0 0 % 2 ^ 32) (to_unsigned s.dimension)).1,
            (lib.data_align (a.ptr.take (a.shape.getD 0 0 * to_size_t s.dimension))
              (a.shape.getD 0 0 % 2 ^ 32) (to_unsigned s.dimension)).2 % 2 ^ 32),
        { s with calls := s.calls ++
            [.data_align (a.ptr.take (a.shape.getD 0 0 * to_size_t s.dimension))
              (a.shape.getD 0 0 % 2 ^ 32) (to_unsigned s.dimension)] }) := by
  simp [align_data, h]

theorem align_data_bad {ι : Type} (lib : Library ι) (s : State ι) (a : PyArray)
    (h : shape_mismatch a s.dimension = true) :
    align_data lib s a =
      (.error (.runtime_error "Data must be 2D array with correct dimension"), s) := by
  simp [align_data, h]

theorem rows_of_loop (n k : Nat) (w : Nat → List Nat) :
    (List.range n).map
        (fun i => store_row (indices_after k (w i)) k
          ((List.replicate n (List.replicate k (0 : Int))).getD i []))
      ++ (List.replicate n (List.replicate k (0 : Int))).drop n
      = (List.range n).map (fun i => (indices_after k (w i)).map static_cast_int) := by
  have hdrop : (List.replicate n (List.replicate k (0 : Int))).drop n = [] := by simp
  rw [hdrop, List.append_nil]
  apply List.map_congr_left
  intro i hi
  have hi2 : i < n := List.mem_range.mp hi
  have hget : (List.replicate n (List.replicate k (0 : Int))).getD i [] = List.replicate k 0 := by
    simp [List.getD_eq_getElem?_getD, List.getElem?_replicate, hi2]
  rw [hget, store_row_indices_after]

theorem search_opt_ok {ι : Type} (lib : Library ι) (s s1 : State ι) (queries : PyArray)
    (k search_L : Int) (buf : List Nat) (ad : Nat)
    (hshape : shape_mismatch queries s.dimension = false) (hk : 0 ≤ k)
    (hal : align_data lib s queries = (.ok (buf, ad), s1)) :
    search_opt lib s queries k search_L =
      (.ok ((List.range (queries.shape.getD 0 0)).map (fun i =>
              (indices_after k.toNat
                (lib.SearchWithOptGraph s1.index buf (i * ad) k.toNat
                  [("L_search", .int search_L), ("P_search", .unsigned (to_unsigned search_L))])).map
                static_cast_int)),
        { s1 with calls := s1.calls ++ (List.range (queries.shape.getD 0 0)).map (fun i =>
            LibCall.SearchWithOptGraph buf (i * ad) k.toNat
              [("L_search", .int search_L), ("P_search", .unsigned (to_unsigned search_L))]) }) := by
  unfold search_opt
  simp only [hshape, hal, set_L_search_P_search, not_lt.mpr hk, if_false, Bool.false_eq_true]
  rw [search_loop_eq
    (fun i row => store_row (indices_after k.toNat
      (lib.SearchWithOptGraph s1.index buf (i * ad) k.toNat
        [("L_search", .int search_L), ("P_search", .unsigned (to_unsigned search_L))]))
      k.toNat row)
    (fun i => LibCall.SearchWithOptGraph buf (i * ad) k.toNat
      [("L_search", .int search_L), ("P_search", .unsigned (to_unsigned search_L))])
    (queries.shape.getD 0 0) _ s1.calls (by simp)]
  simp only [rows_of_loop]

theorem search_ok {ι : Type} (lib : Library ι) (s s1 s2 : State ι) (queries data : PyArray)
    (k search_L : Int) (buf x : List Nat) (ad xd : Nat)
    (hshape : shape_mismatch queries s.dimension = false) (hk : 0 ≤ k)
    (hal : align_data lib s queries = (.ok (buf, ad), s1))
    (hal2 : align_data lib s1 data = (.ok (x, xd), s2)) :
    search lib s queries data k search_L =
      (.ok ((List.range (queries.shape.getD 0 0)).map (fun i =>
              (indices_after k.toNat
                (lib.Search s2.index buf (i * ad) x k.toNat
                  [("L_search", .int search_L), ("P_search", .unsigned (to_unsigned search_L))])).map
                static_cast_int)),
        { s2 with calls := s2.calls ++ (List.range (queries.shape.getD 0 0)).map (fun i =>
            LibCall.Search buf (i * ad) x k.toNat
              [("L_search", .int search_L), ("P_search", .unsigned (to_unsigned search_L))]) }) := by
  unfold search
  simp only [hshape, hal, hal2, set_L_search_P_search, not_lt.mpr hk, if_false,
    Bool.false_eq_true]
  rw [search_loop_eq
    (fun i row => store_row (indices_after k.toNat
      (lib.Search s2.index buf (i * ad) x k.toNat
        [("L_search", .int search_L), ("P_search", .unsigned (to_unsigned search_L))]))
      k.toNat row)
    (fun i => LibCall.Search buf (i * ad) x k.toNat
      [("L_search", .int search_L), ("P_search", .unsigned (to_unsigned search_L))])
    (queries.shape.getD 0 0) _ s2.calls (by simp)]
  simp only [rows_of_loop]

theorem constructor_dimension {ι : Type} (lib : Library ι) (dim num_points : Nat)
    (metric : Metric) (h : dim + 7 < 2 ^ 63) :
    (NSGWrapper lib dim num_points metric).dimension = (dim : Int) ∧
    (NSGWrapper lib dim num_points metric).aligned_dimension = (((dim + 7) / 8 * 8 : Nat) : Int) := by
  have h1 : to_ssize_t (dim : Int) = (dim : Int) := by
    unfold to_ssize_t; omega
  have h2 : to_ssize_t ((dim : Int) + 7) = (dim : Int) + 7 := by
    unfold to_ssize_t; omega
  have h3 : Int.tdiv ((dim : Int) + 7) 8 = (((dim + 7) / 8 : Nat) : Int) := by
    rw [Int.tdiv_eq_ediv (by omega) (by omega)]; omega
  have h4 : to_ssize_t ((((dim + 7) / 8 : Nat) : Int) * 8) = (((dim + 7) / 8 * 8 : Nat) : Int) := by
    unfold to_ssize_t; omega
  simp only [NSGWrapper, h1, h2, h3, h4, and_self]

theorem build_index_ok {ι : Type} (lib : Library ι) (s : State ι) (data : PyArray)
    (knng_path : String) (L R C : Int) (h : shape_mismatch data s.dimension = false) :
    build_index lib s data knng_path L R C =
      (.ok (),
        { index := lib.Build s.index (data.shape.getD 0 0)
            (lib.data_align (data.ptr.take (data.shape.getD 0 0 * to_size_t s.dimension))
              (data.shape.getD 0 0 % 2 ^ 32) (to_unsigned s.dimension)).1
            [("L", .int L), ("R", .int R), ("C", .int C), ("nn_graph_path", .string knng_path)]
          dimension := s.dimension
          aligned_dimension :=
            (((lib.data_align (data.ptr.take (data.shape.getD 0 0 * to_size_t s.dimension))
              (data.shape.getD 0 0 % 2 ^ 32) (to_unsigned s.dimension)).2 % 2 ^ 32 : Nat) : Int)
          n_points := data.shape.getD 0 0
          calls := s.calls ++
            [.data_align (data.ptr.take (data.shape.getD 0 0 * to_size_t s.dimension))
                (data.shape.getD 0 0 % 2 ^ 32) (to_unsigned s.dimension),
              .Build (data.shape.getD 0 0)
                (lib.data_align (data.ptr.take (data.shape.getD 0 0 * to_size_t s.dimension))
                  (data.shape.getD 0 0 % 2 ^ 32) (to_unsigned s.dimension)).1
                [("L", .int L), ("R", .int R), ("C", .int C),
                  ("nn_graph_path", .string knng_path)]] }) := by
  unfold build_index
  have hal := align_data_ok lib { s with n_points := data.shape.getD 0 0 } data h
  simp only [h, hal, set_L_R_C_path, Bool.false_eq_true, if_false, List.append_assoc,
    List.singleton_append]

theorem build_index_bad {ι : Type} (lib : Library ι) (s : State ι) (data : PyArray)
    (knng_path : String) (L R C : Int) (h : shape_mismatch data s.dimension = true) :
    build_index lib s data knng_path L R C =
      (.error (.runtime_error "Data must be 2D array with correct dimension"), s) := by
  simp [build_index, h]

theorem optimize_graph_ok {ι : Type} (lib : Library ι) (s : State ι) (data : PyArray)
    (h : shape_mismatch data s.dimension = false) :
    optimize_graph lib s data =
      (.ok (),
        { s with
          index := lib.OptimizeGraph s.index
            (lib.data_align (data.ptr.take (data.shape.getD 0 0 * to_size_t s.dimension))
              (data.shape.getD 0 0 % 2 ^ 32) (to_unsigned s.dimension)).1
          calls := s.calls ++
            [.data_align (data.ptr.take (data.shape.getD 0 0 * to_size_t s.dimension))
                (data.shape.getD 0 0 % 2 ^ 32) (to_unsigned s.dimension),
              .OptimizeGraph
                (lib.data_align (data.ptr.take (data.shape.getD 0 0 * to_size_t s.dimension))
                  (data.shape.getD 0 0 % 2 ^ 32) (to_unsigned s.dimension)).1] }) := by
  unfold optimize_graph
  have hal := align_data_ok lib s data h
  simp only [h, hal, Bool.false_eq_true, if_false, List.append_assoc, List.singleton_append]

theorem optimize_graph_bad {ι : Type} (lib : Library ι) (s : State ι) (data : PyArray)
    (h : shape_mismatch data s.dimension = true) :
    optimize_graph lib s data =
      (.error (.runtime_error "Data must be 2D array with correct dimension"), s) := by
  simp [optimize_graph, h]

theorem search_opt_bad {ι : Type} (lib : Library ι) (s : State ι) (queries : PyArray)
    (k search_L : Int) (h : shape_mismatch queries s.dimension = true) :
    search_opt lib s queries k search_L =
      (.error (.runtime_error "Queries must be 2D array with correct dimension"), s) := by
  simp [search_opt, h]

theorem search_opt_negative {ι : Type} (lib : Library ι) (s : State ι) (queries : PyArray)
    (k search_L : Int) (h : shape_mismatch queries s.dimension = false) (hk : k < 0) :
    search_opt lib s queries k search_L =
      (.error .length_error,
        { s with calls := s.calls ++
            [.data_align (queries.ptr.take (queries.shape.getD 0 0 * to_size_t s.dimension))
              (queries.shape.getD 0 0 % 2 ^ 32) (to_unsigned s.dimension)] }) := by
  unfold search_opt
  have hal := align_data_ok lib s queries h
  simp only [h, hal, hk, Bool.false_eq_true, if_false, if_true]

theorem search_bad_queries {ι : Type} (lib : Library ι) (s : State ι) (queries data : PyArray)
    (k search_L : Int) (h : shape_mismatch queries s.dimension = true) :
    search lib s queries data k search_L =
      (.error (.runtime_error "Queries must be 2D array with correct dimension"), s) := by
  simp [search, h]

theorem search_bad_data {ι : Type} (lib : Library ι) (s : State ι) (queries data : PyArray)
    (k search_L : Int) (h : shape_mismatch queries s.dimension = false)
    (h2 : shape_mismatch data s.dimension = true) :
    search lib s queries data k search_L =
      (.error (.runtime_error "Data must be 2D array with correct dimension"),
        { s with calls := s.calls ++
            [.data_align (queries.ptr.take (queries.shape.getD 0 0 * to_size_t s.dimension))
              (queries.shape.getD 0 0 % 2 ^ 32) (to_unsigned s.dimension)] }) := by
  unfold search
  have hal := align_data_ok lib s queries h
  have hal2 := align_data_bad lib
    { s with calls := s.calls ++
        [.data_align (queries.ptr.take (queries.shape.getD 0 0 * to_size_t s.dimension))
          (queries.shape.getD 0 0 % 2 ^ 32) (to_unsigned s.dimension)] } data h2
  simp only [h, hal, hal2, Bool.false_eq_true, if_false]

theorem search_negative {ι : Type} (lib : Library ι) (s : State ι) (queries data : PyArray)
    (k search_L : Int) (h : shape_mismatch queries s.dimension = false)
    (h2 : shape_mismatch data s.dimension = false) (hk : k < 0) :
    search lib s queries data k search_L =
      (.error .length_error,
        { s with calls := s.calls ++
            [.data_align (queries.ptr.take (queries.shape.getD 0 0 * to_size_t s.dimension))
                (queries.shape.getD 0 0 % 2 ^ 32) (to_unsigned s.dimension),
              .data_align (data.ptr.take (data.shape.getD 0 0 * to_size_t s.dimension))
                (data.shape.getD 0 0 % 2 ^ 32) (to_unsigned s.dimension)] }) := by
  unfold search
  have hal := align_data_ok lib s queries h
  have hal2 := align_data_ok lib
    { s with calls := s.calls ++
        [.data_align (queries.ptr.take (queries.shape.getD 0 0 * to_size_t s.dimension))
          (queries.shape.getD 0 0 % 2 ^ 32) (to_unsigned s.dimension)] } data h2
  simp only [h, hal, hal2, hk, Bool.false_eq_true, if_false, if_true, List.append_assoc,
    List.singleton_append]

theorem align_data_aligned {ι : Type} (lib : Library ι) (s : State ι) (a : PyArray)
    (h : ¬ not_rows_of a s.dimension) :
    align_data lib s a =
      (.ok (aligned lib s.dimension a),
        { s with calls := s.calls ++ [align_call s.dimension a] }) :=
  align_data_ok lib s a ((shape_mismatch_false_iff a s.dimension).mpr h)

theorem search_opt_aligned {ι : Type} (lib : Library ι) (s : State ι) (queries : PyArray)
    (k search_L : Int) (h : ¬ not_rows_of queries s.dimension) (hk : 0 ≤ k) :
    search_opt lib s queries k search_L =
      (.ok ((List.range (queries.shape.getD 0 0)).map (fun i =>
              (indices_after k.toNat
                (lib.SearchWithOptGraph s.index (aligned lib s.dimension queries).1
                  (i * (aligned lib s.dimension queries).2) k.toNat
                  [("L_search", .int search_L), ("P_search", .unsigned (to_unsigned search_L))])).map
                static_cast_int)),
        { s with calls := s.calls ++ (align_call s.dimension queries ::
            (List.range (queries.shape.getD 0 0)).map (fun i =>
              LibCall.SearchWithOptGraph (aligned lib s.dimension queries).1
                (i * (aligned lib s.dimension queries).2) k.toNat
                [("L_search", .int search_L),
                  ("P_search", .unsigned (to_unsigned search_L))])) }) := by
  rw [search_opt_ok lib s _ queries k search_L _ _
    ((shape_mismatch_false_iff queries s.dimension).mpr h) hk (align_data_aligned lib s queries h)]
  simp only [List.append_assoc, List.singleton_append]
  rfl

theorem search_aligned {ι : Type} (lib : Library ι) (s : State ι) (queries data : PyArray)
    (k search_L : Int) (h : ¬ not_rows_of queries s.dimension)
    (h2 : ¬ not_rows_of data s.dimension) (hk : 0 ≤ k) :
    search lib s queries data k search_L =
      (.ok ((List.range (queries.shape.getD 0 0)).map (fun i =>
              (indices_after k.toNat
                (lib.Search s.index (aligned lib s.dimension queries).1
                  (i * (aligned lib s.dimension queries).2) (aligned lib s.dimension data).1
                  k.toNat
                  [("L_search", .int search_L), ("P_search", .unsigned (to_unsigned search_L))])).map
                static_cast_int)),
        { s with calls := s.calls ++ (align_call s.dimension queries ::
            align_call s.dimension data ::
            (List.range (queries.shape.getD 0 0)).map (fun i =>
              LibCall.Search (aligned lib s.dimension queries).1
                (i * (aligned lib s.dimension queries).2) (aligned lib s.dimension data).1
                k.toNat
                [("L_search", .int search_L),
                  ("P_search", .unsigned (to_unsigned search_L))])) }) := by
  rw [search_ok lib s _ _ queries data k search_L _ _ _ _
    ((shape_mismatch_false_iff queries s.dimension).mpr h) hk
    (align_data_aligned lib s queries h)
    (align_data_aligned lib { s with calls := s.calls ++ [align_call s.dimension queries] }
      data h2)]
  simp only [List.append_assoc, List.singleton_append]
  rfl

theorem op_run_fields {ι : Type} (lib : Library ι) (s : State ι) (op : Op) :
    (op.run lib s).dimension = s.dimension ∧
    ((op.run lib s).aligned_dimension = s.aligned_dimension ∨
      ∃ data knng_path L R C, op = .build_index data knng_path L R C ∧
        ¬ not_rows_of data s.dimension ∧
        (op.run lib s).aligned_dimension = (((aligned lib s.dimension data).2 : Nat) : Int)) := by
  cases op with
  | build_index data knng_path L R C =>
    by_cases h : shape_mismatch data s.dimension = true
    · simp only [Op.run]
      rw [build_index_bad lib s data knng_path L R C h]
      exact ⟨rfl, Or.inl rfl⟩
    · have hf : shape_mismatch data s.dimension = false := by simpa using h
      simp only [Op.run]
      rw [build_index_ok lib s data knng_path L R C hf]
      exact ⟨rfl, Or.inr ⟨data, knng_path, L, R, C, rfl,
        (shape_mismatch_false_iff data s.dimension).mp hf, rfl⟩⟩
  | optimize_graph data =>
    by_cases h : shape_mismatch data s.dimension = true
    · simp only [Op.run]
      rw [optimize_graph_bad lib s data h]
      exact ⟨rfl, Or.inl rfl⟩
    · have hf : shape_mismatch data s.dimension = false := by simpa using h
      simp only [Op.run]
      rw [optimize_graph_ok lib s data hf]
      exact ⟨rfl, Or.inl rfl⟩
  | search_opt queries k search_L =>
    by_cases h : shape_mismatch queries s.dimension = true
    · simp only [Op.run]
      rw [search_opt_bad lib s queries k search_L h]
      exact ⟨rfl, Or.inl rfl⟩
    · have hf : shape_mismatch queries s.dimension = false := by simpa using h
      by_cases hk : k < 0
      · simp only [Op.run]
        rw [search_opt_negative lib s queries k search_L hf hk]
        exact ⟨rfl, Or.inl rfl⟩
      · simp only [Op.run]
        rw [search_opt_ok lib s _ queries k search_L _ _ hf (not_lt.mp hk)
          (align_data_ok lib s queries hf)]
        exact ⟨rfl, Or.inl rfl⟩
  | search queries data k search_L =>
    by_cases h : shape_mismatch queries s.dimension = true
    · simp only [Op.run]
      rw [search_bad_queries lib s queries data k search_L h]
      exact ⟨rfl, Or.inl rfl⟩
    · have hf : shape_mismatch queries s.dimension = false := by simpa using h
      by_cases h2 : shape_mismatch data s.dimension = true
      · simp only [Op.run]
        rw [search_bad_data lib s queries data k search_L hf h2]
        exact ⟨rfl, Or.inl rfl⟩
      · have hf2 : shape_mismatch data s.dimension = false := by simpa using h2
        by_cases hk : k < 0
        · simp only [Op.run]
          rw [search_negative lib s queries data k search_L hf hf2 hk]
          exact ⟨rfl, Or.inl rfl⟩
        · simp only [Op.run]
          rw [search_ok lib s _ _ queries data k search_L _ _ _ _ hf
            (not_lt.mp hk) (align_data_ok lib s queries hf) (align_data_ok lib _ data hf2)]
          exact ⟨rfl, Or.inl rfl⟩
  | save_index path => exact ⟨rfl, Or.inl rfl⟩
  | load_index path => exact ⟨rfl, Or.inl rfl⟩

theorem least_multiple_of_8_eq (d r : Nat) (h : least_multiple_of_8 d r) :
    r = (d + 7) / 8 * 8 := by
  obtain ⟨h8, hle, hmin⟩ := h
  have h1 := hmin ((d + 7) / 8 * 8) (Dvd.intro_left _ rfl) (by omega)
  obtain ⟨c, hc⟩ := h8
  omega

theorem aligned_dim_of_aligns_to_8 {ι : Type} (lib : Library ι) (hlib : aligns_to_8 lib)
    (d : Int) (data : PyArray) (hv : ¬ not_rows_of data d) (hd : d + 7 < 2 ^ 32) :
    0 ≤ d ∧ (((aligned lib d data).2 : Nat) : Int) = (((d.toNat + 7) / 8 * 8 : Nat) : Int) := by
  have hd0 : 0 ≤ d := by
    unfold not_rows_of at hv
    have : ((data.shape.getD 1 0 : Nat) : Int) = d := by
      by_contra hne; exact hv (Or.inr hne)
    omega
  have hu : to_unsigned d = d.toNat := by
    unfold to_unsigned; omega
  have hlt : d.toNat + 7 < 2 ^ 32 := by omega
  have h := least_multiple_of_8_eq _ _
    (hlib (data.ptr.take (data.shape.getD 0 0 * to_size_t d)) (data.shape.getD 0 0 % 2 ^ 32)
      d.toNat hlt)
  refine ⟨hd0, ?_⟩
  simp only [aligned, hu]
  rw [h]
  have : (d.toNat + 7) / 8 * 8 < 2 ^ 32 := by omega
  rw [Nat.mod_eq_of_lt this]

theorem refLibrary_aligns_to_8 : aligns_to_8 refLibrary := by
  intro data_ori point_num dim hdim
  have hmod : (dim + 7) % 2 ^ 32 = dim + 7 := Nat.mod_eq_of_lt hdim
  refine ⟨Dvd.intro_left _ rfl, ?_, ?_⟩
  · show dim ≤ (dim + 7) % 2 ^ 32 / 8 * 8
    rw [hmod]
    omega
  · intro m hm hle
    show (dim + 7) % 2 ^ 32 / 8 * 8 ≤ m
    rw [hmod]
    obtain ⟨c, hc⟩ := hm
    omega

theorem refLibrary_data_align_lt (data_ori : List Nat) (point_num dim : Nat) :
    (refLibrary.data_align data_ori point_num dim).2 < 2 ^ 32 := by
  show (dim + 7) % 2 ^ 32 / 8 * 8 < 2 ^ 32
  have h := Nat.mod_lt (dim + 7) (show 0 < 2 ^ 32 by norm_num)
  omega

theorem run_ops_fields {ι : Type} (lib : Library ι) (hlib : aligns_to_8 lib) (dim : Nat)
    (hdim : dim + 7 < 2 ^ 32) (ops : List Op) :
    ∀ s : State ι, s.dimension = (dim : Int) →
      s.aligned_dimension = (((dim + 7) / 8 * 8 : Nat) : Int) →
      (run_ops lib s ops).dimension = (dim : Int) ∧
      (run_ops lib s ops).aligned_dimension = (((dim + 7) / 8 * 8 : Nat) : Int) := by
  induction ops with
  | nil => intro s h1 h2; exact ⟨h1, h2⟩
  | cons op ops ih =>
    intro s h1 h2
    have hf := op_run_fields lib s op
    have hstep : run_ops lib s (op :: ops) = run_ops lib (op.run lib s) ops := rfl
    rw [hstep]
    apply ih
    · rw [hf.1, h1]
    · rcases hf.2 with h | ⟨data, _, _, _, _, _, hv, h⟩
      · rw [h, h2]
      · have ha := aligned_dim_of_aligns_to_8 lib hlib s.dimension data hv (by omega)
        rw [h, ha.2, h1]
        simp

theorem static_cast_int_of_lt (u : Nat) (hu : u < 2 ^ 32) :
    (u < 2 ^ 31 → static_cast_int u = (u : Int)) ∧
    (2 ^ 31 ≤ u → static_cast_int u = (u : Int) - 2 ^ 32 ∧ (u : Int) - 2 ^ 32 < 0) ∧
    (static_cast_int u = (u : Int) ↔ u < 2 ^ 31) := by
  have hmod : u % 2 ^ 32 = u := Nat.mod_eq_of_lt hu
  refine ⟨?_, ?_, ?_⟩
  · intro h
    simp only [static_cast_int, hmod, h, if_true]
  · intro h
    have h2 : ¬ u < 2 ^ 31 := by omega
    simp only [static_cast_int, hmod, h2, if_false]
    constructor
    · trivial
    · omega
  · by_cases h : u < 2 ^ 31
    · simp only [static_cast_int, hmod, h, if_true]
    · simp only [static_cast_int, hmod, h, if_false, iff_false]
      omega

theorem indices_after_lt (k : Nat) (written : List Nat) :
    ∀ u ∈ indices_after k written, u < 2 ^ 32 := by
  intro u hu
  unfold indices_after at hu
  rcases List.mem_append.mp hu with h | h
  · obtain ⟨v, _, hv⟩ := List.mem_map.mp (List.mem_of_mem_take h)
    rw [← hv]
    exact Nat.mod_lt v (by norm_num)
  · rw [(List.mem_replicate.mp h).2]
    norm_num

theorem converted_entry (ind : List Nat) (hind : ∀ u ∈ ind, u < 2 ^ 32) (j u : Nat)
    (h : ind[j]? = some u) :
    u < 2 ^ 32 ∧
    (u < 2 ^ 31 → (ind.map static_cast_int)[j]? = some (u : Int)) ∧
    (2 ^ 31 ≤ u → (ind.map static_cast_int)[j]? = some ((u : Int) - 2 ^ 32) ∧
      (u : Int) - 2 ^ 32 < 0) ∧
    ((ind.map static_cast_int)[j]? = some (u : Int) ↔ u < 2 ^ 31) := by
  have hu : u < 2 ^ 32 := hind u (List.getElem?_mem h)
  have hget : (ind.map static_cast_int)[j]? = some (static_cast_int u) := by
    rw [List.getElem?_map, h]; rfl
  have hc := static_cast_int_of_lt u hu
  rw [hget]
  refine ⟨hu, ?_, ?_, ?_⟩
  · intro hlt; rw [hc.1 hlt]
  · intro hge; rw [(hc.2.1 hge).1]; exact ⟨rfl, (hc.2.1 hge).2⟩
  · constructor
    · intro heq; exact hc.2.2.mp (Option.some.inj heq)
    · intro hlt; rw [hc.1 hlt]

theorem converted_row_small (ind : List Nat) (n : Nat) (hn : n ≤ 2 ^ 31)
    (hall : ∀ v ∈ ind, v < n) :
    ind.map static_cast_int = ind.map (fun (v : Nat) => (v : Int)) := by
  apply List.map_congr_left
  intro v hv
  have hv2 : v < 2 ^ 31 := lt_of_lt_of_le (hall v hv) hn
  exact (static_cast_int_of_lt v (by omega)).1 hv2

/-! ## The claims -/

/-- C2: for a dimension `dim` with `dim + 7` inside the range of `Py_ssize_t`,
the aligned dimension the constructor computes is `(dim + 7) / 8 * 8`; it is a
multiple of 8, it is at least `dim` and less than `dim + 8`, it is `dim` itself
when `dim` is a multiple of 8, and no multiple of 8 that is at least `dim` is
smaller. -/
theorem constructor_aligned_dimension_least_multiple {ι : Type} (lib : Library ι)
    (dim num_points : Nat) (metric : Metric) (h : dim + 7 < 2 ^ 63) :
    (NSGWrapper lib dim num_points metric).aligned_dimension = (((dim + 7) / 8 * 8 : Nat) : Int) ∧
    (8 : Int) ∣ (NSGWrapper lib dim num_points metric).aligned_dimension ∧
    (dim : Int) ≤ (NSGWrapper lib dim num_points metric).aligned_dimension ∧
    (NSGWrapper lib dim num_points metric).aligned_dimension < (dim : Int) + 8 ∧
    (8 ∣ dim → (NSGWrapper lib dim num_points metric).aligned_dimension = (dim : Int)) ∧
    (∀ m : Int, 8 ∣ m → (dim : Int) ≤ m →
      (NSGWrapper lib dim num_points metric).aligned_dimension ≤ m) := by
  rw [(constructor_dimension lib dim num_points metric h).2]
  refine ⟨rfl, ?_, ?_, ?_, ?_, ?_⟩
  · exact ⟨(((dim + 7) / 8 : Nat) : Int), by push_cast; ring⟩
  · omega
  · omega
  · intro hd; omega
  · intro m hm hle; omega

/-- C2 at `dim = 10`: the constructor computes 16. -/
theorem constructor_aligned_dimension_least_multiple_witness :
    10 + 7 < 2 ^ 63 ∧
    (NSGWrapper refLibrary 10 5 Metric.L2).aligned_dimension = (((10 + 7) / 8 * 8 : Nat) : Int) ∧
    (8 : Int) ∣ (NSGWrapper refLibrary 10 5 Metric.L2).aligned_dimension ∧
    ((10 : Nat) : Int) ≤ (NSGWrapper refLibrary 10 5 Metric.L2).aligned_dimension ∧
    (NSGWrapper refLibrary 10 5 Metric.L2).aligned_dimension < ((10 : Nat) : Int) + 8 ∧
    (8 ∣ 10 → (NSGWrapper refLibrary 10 5 Metric.L2).aligned_dimension = ((10 : Nat) : Int)) ∧
    (∀ m : Int, 8 ∣ m → ((10 : Nat) : Int) ≤ m →
      (NSGWrapper refLibrary 10 5 Metric.L2).aligned_dimension ≤ m) :=
  ⟨by norm_num, constructor_aligned_dimension_least_multiple refLibrary 10 5 Metric.L2 (by norm_num)⟩

theorem search_opt_valid {ι : Type} (lib : Library ι) (s : State ι) (queries : PyArray)
    (k search_L : Int) (h : shape_mismatch queries s.dimension = false) :
    (∀ w, (search_opt lib s queries k search_L).1 ≠ .error (.runtime_error w)) ∧
    ∃ rest, (search_opt lib s queries k search_L).2.calls = s.calls ++
      (.data_align (queries.ptr.take (queries.shape.getD 0 0 * to_size_t s.dimension))
        (queries.shape.getD 0 0 % 2 ^ 32) (to_unsigned s.dimension) :: rest) := by
  by_cases hk : k < 0
  · rw [search_opt_negative lib s queries k search_L h hk]
    exact ⟨fun w hw => (by cases hw), [], rfl⟩
  · rw [search_opt_ok lib s _ queries k search_L _ _ h (not_lt.mp hk) (align_data_ok lib s queries h)]
    exact ⟨fun w hw => (by cases hw), _, List.append_assoc _ _ _⟩

theorem search_valid {ι : Type} (lib : Library ι) (s : State ι) (queries data : PyArray)
    (k search_L : Int) (h : shape_mismatch queries s.dimension = false)
    (h2 : shape_mismatch data s.dimension = false) :
    (∀ w, (search lib s queries data k search_L).1 ≠ .error (.runtime_error w)) ∧
    ∃ rest, (search lib s queries data k search_L).2.calls = s.calls ++
      (.data_align (queries.ptr.take (queries.shape.getD 0 0 * to_size_t s.dimension))
        (queries.shape.getD 0 0 % 2 ^ 32) (to_unsigned s.dimension) :: rest) := by
  by_cases hk : k < 0
  · rw [search_negative lib s queries data k search_L h h2 hk]
    exact ⟨fun w hw => (by cases hw), _, rfl⟩
  · rw [search_ok lib s _ _ queries data k search_L _ _ _ _ h (not_lt.mp hk)
      (align_data_ok lib s queries h) (align_data_ok lib _ data h2)]
    exact ⟨fun w hw => (by cases hw), _, by
      simp only [List.append_assoc]; rfl⟩

/-- C1: `align_data` throws its invalid-input error exactly when the array is
not 2-dimensional or its second extent is not the dimension of the object, and
so do `build_index`, `optimize_graph` and `search_opt`; `search` throws it
exactly when one of its two arrays is so.  For an array that is 2-dimensional
with the right second extent (whatever its number of rows) `align_data`
returns and calls `data_align`, and in each of the four callers the next
library call is that `data_align`. -/
theorem invalid_input_iff_not_rows_of {ι : Type} (lib : Library ι) (s : State ι)
    (a b : PyArray) (knng_path : String) (L R C k search_L : Int) :
    ((∃ w, (align_data lib s a).1 = .error (.runtime_error w)) ↔ not_rows_of a s.dimension) ∧
    ((∃ w, (build_index lib s a knng_path L R C).1 = .error (.runtime_error w))
      ↔ not_rows_of a s.dimension) ∧
    ((∃ w, (optimize_graph lib s a).1 = .error (.runtime_error w))
      ↔ not_rows_of a s.dimension) ∧
    ((∃ w, (search_opt lib s a k search_L).1 = .error (.runtime_error w))
      ↔ not_rows_of a s.dimension) ∧
    ((∃ w, (search lib s a b k search_L).1 = .error (.runtime_error w))
      ↔ not_rows_of a s.dimension ∨ not_rows_of b s.dimension) ∧
    (¬ not_rows_of a s.dimension →
      (∃ r, (align_data lib s a).1 = .ok r) ∧
      (align_data lib s a).2.calls = s.calls ++
        [.data_align (a.ptr.take (a.shape.getD 0 0 * to_size_t s.dimension))
          (a.shape.getD 0 0 % 2 ^ 32) (to_unsigned s.dimension)] ∧
      (∃ rest, (build_index lib s a knng_path L R C).2.calls = s.calls ++
        (.data_align (a.ptr.take (a.shape.getD 0 0 * to_size_t s.dimension))
          (a.shape.getD 0 0 % 2 ^ 32) (to_unsigned s.dimension) :: rest)) ∧
      (∃ rest, (optimize_graph lib s a).2.calls = s.calls ++
        (.data_align (a.ptr.take (a.shape.getD 0 0 * to_size_t s.dimension))
          (a.shape.getD 0 0 % 2 ^ 32) (to_unsigned s.dimension) :: rest)) ∧
      (∃ rest, (search_opt lib s a k search_L).2.calls = s.calls ++
        (.data_align (a.ptr.take (a.shape.getD 0 0 * to_size_t s.dimension))
          (a.shape.getD 0 0 % 2 ^ 32) (to_unsigned s.dimension) :: rest)) ∧
      (¬ not_rows_of b s.dimension →
        ∃ rest, (search lib s a b k search_L).2.calls = s.calls ++
          (.data_align (a.ptr.take (a.shape.getD 0 0 * to_size_t s.dimension))
            (a.shape.getD 0 0 % 2 ^ 32) (to_unsigned s.dimension) :: rest))) := by
  by_cases ha : shape_mismatch a s.dimension = true
  · have hna : not_rows_of a s.dimension := (shape_mismatch_iff a s.dimension).mp ha
    rw [align_data_bad lib s a ha, build_index_bad lib s a knng_path L R C ha,
      optimize_graph_bad lib s a ha, search_opt_bad lib s a k search_L ha,
      search_bad_queries lib s a b k search_L ha]
    refine ⟨⟨fun _ => hna, fun _ => ⟨_, rfl⟩⟩, ⟨fun _ => hna, fun _ => ⟨_, rfl⟩⟩,
      ⟨fun _ => hna, fun _ => ⟨_, rfl⟩⟩, ⟨fun _ => hna, fun _ => ⟨_, rfl⟩⟩,
      ⟨fun _ => Or.inl hna, fun _ => ⟨_, rfl⟩⟩, fun hv => absurd hna hv⟩
  · have hf : shape_mismatch a s.dimension = false := by simpa using ha
    have hva : ¬ not_rows_of a s.dimension := (shape_mismatch_false_iff a s.dimension).mp hf
    have hso := search_opt_valid lib s a k search_L hf
    refine ⟨?_, ?_, ?_, ?_, ?_, ?_⟩
    · rw [align_data_ok lib s a hf]
      exact ⟨fun ⟨w, hw⟩ => (by cases hw), fun hn => absurd hn hva⟩
    · rw [build_index_ok lib s a knng_path L R C hf]
      exact ⟨fun ⟨w, hw⟩ => (by cases hw), fun hn => absurd hn hva⟩
    · rw [optimize_graph_ok lib s a hf]
      exact ⟨fun ⟨w, hw⟩ => (by cases hw), fun hn => absurd hn hva⟩
    · exact ⟨fun ⟨w, hw⟩ => absurd hw (hso.1 w), fun hn => absurd hn hva⟩
    · by_cases hb : shape_mismatch b s.dimension = true
      · have hnb : not_rows_of b s.dimension := (shape_mismatch_iff b s.dimension).mp hb
        rw [search_bad_data lib s a b k search_L hf hb]
        exact ⟨fun _ => Or.inr hnb, fun _ => ⟨_, rfl⟩⟩
      · have hfb : shape_mismatch b s.dimension = false := by simpa using hb
        have hvb : ¬ not_rows_of b s.dimension := (shape_mismatch_false_iff b s.dimension).mp hfb
        have hs := search_valid lib s a b k search_L hf hfb
        exact ⟨fun ⟨w, hw⟩ => absurd hw (hs.1 w), fun hn => hn.elim (absurd · hva) (absurd · hvb)⟩
    · intro _
      refine ⟨?_, ?_, ?_, ?_, hso.2, ?_⟩
      · rw [align_data_ok lib s a hf]; exact ⟨_, rfl⟩
      · rw [align_data_ok lib s a hf]
      · rw [build_index_ok lib s a knng_path L R C hf]; exact ⟨_, rfl⟩
      · rw [optimize_graph_ok lib s a hf]; exact ⟨_, rfl⟩
      · intro hvb
        exact (search_valid lib s a b k search_L hf
          ((shape_mismatch_false_iff b s.dimension).mpr hvb)).2

/-- C3: when the data array fails the dimension test, `build_index` throws and
leaves the object as it was: `n_points`, `aligned_dimension`, the index and the
log of library calls are those of before, so no parameters reached the library
and `Build` was not called. -/
theorem build_index_invalid_data_keeps_state {ι : Type} (lib : Library ι) (s : State ι)
    (data : PyArray) (knng_path : String) (L R C : Int) (h : not_rows_of data s.dimension) :
    build_index lib s data knng_path L R C =
      (.error (.runtime_error "Data must be 2D array with correct dimension"), s) ∧
    (build_index lib s data knng_path L R C).2.n_points = s.n_points ∧
    (build_index lib s data knng_path L R C).2.aligned_dimension = s.aligned_dimension ∧
    (build_index lib s data knng_path L R C).2.index = s.index ∧
    (build_index lib s data knng_path L R C).2.calls = s.calls := by
  have hb := build_index_bad lib s data knng_path L R C ((shape_mismatch_iff _ _).mpr h)
  rw [hb]
  exact ⟨rfl, rfl, rfl, rfl, rfl⟩

/-- C1 at an array of zero rows: `align_data` returns and `data_align` is
called. -/
theorem invalid_input_iff_not_rows_of_witness :
    ¬ not_rows_of ⟨[0, 2], []⟩ (NSGWrapper refLibrary 2 5 Metric.L2).dimension ∧
    (align_data refLibrary (NSGWrapper refLibrary 2 5 Metric.L2) ⟨[0, 2], []⟩).2.calls =
      (NSGWrapper refLibrary 2 5 Metric.L2).calls ++ [.data_align [] 0 2] :=
  ⟨by decide,
    ((invalid_input_iff_not_rows_of refLibrary (NSGWrapper refLibrary 2 5 Metric.L2)
      ⟨[0, 2], []⟩ ⟨[0, 2], []⟩ "g" 40 50 500 10 20).2.2.2.2.2 (by decide)).2.1⟩

/-- C3 at a 1-dimensional array. -/
theorem build_index_invalid_data_keeps_state_witness :
    not_rows_of ⟨[3], [7, 9, 4]⟩ (NSGWrapper refLibrary 2 5 Metric.L2).dimension ∧
    (build_index refLibrary (NSGWrapper refLibrary 2 5 Metric.L2) ⟨[3], [7, 9, 4]⟩
      "g" 40 50 500).2.calls = (NSGWrapper refLibrary 2 5 Metric.L2).calls :=
  ⟨by decide,
    (build_index_invalid_data_keeps_state refLibrary (NSGWrapper refLibrary 2 5 Metric.L2)
      ⟨[3], [7, 9, 4]⟩ "g" 40 50 500 (by decide)).2.2.2.2⟩

/-- C4, as stated, fails: with one valid row and `L = 0`, `R = -1`, `C = 0`,
`build_index` returns, `n_points` changes from 5 to 1, and `Build` is called
with these parameters. -/
theorem build_index_nonpositive_parameters_counterexample :
    ¬ not_rows_of ⟨[1, 2], [7, 9]⟩ (NSGWrapper refLibrary 2 5 Metric.L2).dimension ∧
    (build_index refLibrary (NSGWrapper refLibrary 2 5 Metric.L2) ⟨[1, 2], [7, 9]⟩
      "g" 0 (-1) 0).1 = .ok () ∧
    (NSGWrapper refLibrary 2 5 Metric.L2).n_points = 5 ∧
    (build_index refLibrary (NSGWrapper refLibrary 2 5 Metric.L2) ⟨[1, 2], [7, 9]⟩
      "g" 0 (-1) 0).2.n_points = 1 ∧
    (build_index refLibrary (NSGWrapper refLibrary 2 5 Metric.L2) ⟨[1, 2], [7, 9]⟩
      "g" 0 (-1) 0).2.calls =
      [.IndexNSG 8 5 .L2, .data_align [7, 9] 1 2,
        .Build 1 [7, 9, 0, 0, 0, 0, 0, 0]
          [("L", .int 0), ("R", .int (-1)), ("C", .int 0), ("nn_graph_path", .string "g")]] :=
  ⟨by decide, rfl, rfl, rfl, by decide⟩

/-- C4, amended: with valid data `build_index` makes no check of `L`, `R` and
`C`.  Whatever their values it returns without an error, stores the number of
rows in `n_points` and the dimension reported by `data_align` in
`aligned_dimension`, and calls `Build` once, with the aligned data and with
`L`, `R`, `C` and the path as they were given. -/
theorem build_index_passes_parameters_unchecked {ι : Type} (lib : Library ι) (s : State ι)
    (data : PyArray) (knng_path : String) (L R C : Int)
    (h : ¬ not_rows_of data s.dimension) :
    build_index lib s data knng_path L R C =
      (.ok (),
        { index := lib.Build s.index (data.shape.getD 0 0) (aligned lib s.dimension data).1
            [("L", .int L), ("R", .int R), ("C", .int C), ("nn_graph_path", .string knng_path)]
          dimension := s.dimension
          aligned_dimension := (((aligned lib s.dimension data).2 : Nat) : Int)
          n_points := data.shape.getD 0 0
          calls := s.calls ++
            [align_call s.dimension data,
              .Build (data.shape.getD 0 0) (aligned lib s.dimension data).1
                [("L", .int L), ("R", .int R), ("C", .int C),
                  ("nn_graph_path", .string knng_path)]] }) :=
  build_index_ok lib s data knng_path L R C ((shape_mismatch_false_iff data s.dimension).mpr h)

/-- C4, amended, at `L = 0`, `R = -1`, `C = 0`. -/
theorem build_index_passes_parameters_unchecked_witness :
    ¬ not_rows_of ⟨[1, 2], [7, 9]⟩ (NSGWrapper refLibrary 2 5 Metric.L2).dimension ∧
    (build_index refLibrary (NSGWrapper refLibrary 2 5 Metric.L2) ⟨[1, 2], [7, 9]⟩
      "g" 0 (-1) 0).1 = .ok () :=
  ⟨by decide,
    congrArg Prod.fst
      (build_index_passes_parameters_unchecked refLibrary (NSGWrapper refLibrary 2 5 Metric.L2)
        ⟨[1, 2], [7, 9]⟩ "g" 0 (-1) 0 (by decide))⟩

/-- C5, as stated, fails: on an index built over three points, `search_opt`
with `k = 3` and `search_L = 2`, and `search` with `k = 0`, return without an
error after calling the library search. -/
theorem search_unchecked_k_counterexample :
    ¬ not_rows_of ⟨[1, 2], [7, 9]⟩ builtObject.dimension ∧
    ¬ not_rows_of ⟨[3, 2], [1, 2, 3, 4, 5, 6]⟩ builtObject.dimension ∧
    (search_opt refLibrary builtObject ⟨[1, 2], [7, 9]⟩ 3 2).1 = .ok [[0, 1, 2]] ∧
    (search_opt refLibrary builtObject ⟨[1, 2], [7, 9]⟩ 3 2).2.calls =
      builtObject.calls ++
        [.data_align [7, 9] 1 2,
          .SearchWithOptGraph [7, 9, 0, 0, 0, 0, 0, 0] 0 3
            [("L_search", .int 2), ("P_search", .unsigned 2)]] ∧
    (search refLibrary builtObject ⟨[1, 2], [7, 9]⟩ ⟨[3, 2], [1, 2, 3, 4, 5, 6]⟩ 0 5).1 =
      .ok [[]] ∧
    (search refLibrary builtObject ⟨[1, 2], [7, 9]⟩ ⟨[3, 2], [1, 2, 3, 4, 5, 6]⟩ 0 5).2.calls =
      builtObject.calls ++
        [.data_align [7, 9] 1 2, .data_align [1, 2, 3, 4, 5, 6] 3 2,
          .Search [7, 9, 0, 0, 0, 0, 0, 0] 0
            [1, 2, 0, 0, 0, 0, 0, 0, 3, 4, 0, 0, 0, 0, 0, 0, 5, 6, 0, 0, 0, 0, 0, 0] 0
            [("L_search", .int 5), ("P_search", .unsigned 5)]] :=
  ⟨by decide, by decide, rfl, by decide, rfl, by decide⟩

/-- C5, amended: with correctly shaped arrays `search_opt` and `search` make
no check of `k` against 0 or `search_L`.  When `k ≥ 0` they return without an
error after one library search per query row, each with `K = k`,
`L_search = search_L` and `P_search = search_L` converted to `unsigned`; when
`k < 0` they fail with the length error of the row allocation, after the calls
of `data_align` and before any library search. -/
theorem search_passes_k_unchecked {ι : Type} (lib : Library ι) (s : State ι)
    (queries data : PyArray) (k search_L : Int)
    (hq : ¬ not_rows_of queries s.dimension) (hd : ¬ not_rows_of data s.dimension) :
    (0 ≤ k →
      (∃ rows, (search_opt lib s queries k search_L).1 = .ok rows) ∧
      (search_opt lib s queries k search_L).2.calls = s.calls ++
        (align_call s.dimension queries ::
          (List.range (queries.shape.getD 0 0)).map (fun i =>
            LibCall.SearchWithOptGraph (aligned lib s.dimension queries).1
              (i * (aligned lib s.dimension queries).2) k.toNat
              [("L_search", .int search_L), ("P_search", .unsigned (to_unsigned search_L))])) ∧
      (∃ rows, (search lib s queries data k search_L).1 = .ok rows) ∧
      (search lib s queries data k search_L).2.calls = s.calls ++
        (align_call s.dimension queries :: align_call s.dimension data ::
          (List.range (queries.shape.getD 0 0)).map (fun i =>
            LibCall.Search (aligned lib s.dimension queries).1
              (i * (aligned lib s.dimension queries).2) (aligned lib s.dimension data).1 k.toNat
              [("L_search", .int search_L), ("P_search", .unsigned (to_unsigned search_L))]))) ∧
    (k < 0 →
      (search_opt lib s queries k search_L).1 = .error .length_error ∧
      (search_opt lib s queries k search_L).2.calls =
        s.calls ++ [align_call s.dimension queries] ∧
      (search lib s queries data k search_L).1 = .error .length_error ∧
      (search lib s queries data k search_L).2.calls =
        s.calls ++ [align_call s.dimension queries, align_call s.dimension data]) := by
  constructor
  · intro hk
    rw [search_opt_aligned lib s queries k search_L hq hk,
      search_aligned lib s queries data k search_L hq hd hk]
    exact ⟨⟨_, rfl⟩, rfl, ⟨_, rfl⟩, rfl⟩
  · intro hk
    rw [search_opt_negative lib s queries k search_L
        ((shape_mismatch_false_iff queries s.dimension).mpr hq) hk,
      search_negative lib s queries data k search_L
        ((shape_mismatch_false_iff queries s.dimension).mpr hq)
        ((shape_mismatch_false_iff data s.dimension).mpr hd) hk]
    exact ⟨rfl, rfl, rfl, rfl⟩

/-- C5, amended, at `k = 3`, `search_L = 2`. -/
theorem search_passes_k_unchecked_witness :
    ¬ not_rows_of ⟨[1, 2], [7, 9]⟩ (NSGWrapper refLibrary 2 5 Metric.L2).dimension ∧
    ¬ not_rows_of ⟨[1, 2], [3, 4]⟩ (NSGWrapper refLibrary 2 5 Metric.L2).dimension ∧
    ∃ rows, (search_opt refLibrary (NSGWrapper refLibrary 2 5 Metric.L2)
      ⟨[1, 2], [7, 9]⟩ 3 2).1 = .ok rows :=
  ⟨by decide, by decide,
    ((search_passes_k_unchecked refLibrary (NSGWrapper refLibrary 2 5 Metric.L2)
      ⟨[1, 2], [7, 9]⟩ ⟨[1, 2], [3, 4]⟩ 3 2 (by decide) (by decide)).1 (by decide)).1⟩

/-- C6, as stated, fails: on an index built over `n = 3` points a search with
`k = 5` returns a row of 5 entries, not of `min(5, 3) = 3`: the three ids the
library wrote and two untouched zeroes. -/
theorem search_row_length_counterexample :
    builtObject.n_points = 3 ∧
    ¬ not_rows_of ⟨[1, 2], [7, 9]⟩ builtObject.dimension ∧
    ¬ not_rows_of ⟨[3, 2], [1, 2, 3, 4, 5, 6]⟩ builtObject.dimension ∧
    (search_opt refLibrary builtObject ⟨[1, 2], [7, 9]⟩ 5 10).1 = .ok [[0, 1, 2, 0, 0]] ∧
    (search refLibrary builtObject ⟨[1, 2], [7, 9]⟩ ⟨[3, 2], [1, 2, 3, 4, 5, 6]⟩ 5 10).1 =
      .ok [[0, 1, 2, 0, 0]] ∧
    ([0, 1, 2, 0, 0] : List Int).length ≠ min 5 3 :=
  ⟨rfl, by decide, by decide, rfl, rfl, by decide⟩

/-- C6, amended: for correctly shaped arrays and `k > 0`, every row that
`search_opt` and `search` return has exactly `k` entries, whatever the number
of points of the index; it is not shortened to `min(k, n)` when `k` exceeds the
number of points. -/
theorem search_rows_have_k_entries {ι : Type} (lib : Library ι) (s : State ι)
    (queries data : PyArray) (k search_L : Int)
    (hq : ¬ not_rows_of queries s.dimension) (hd : ¬ not_rows_of data s.dimension)
    (hk : 0 < k) :
    (∃ rows, (search_opt lib s queries k search_L).1 = .ok rows ∧
      ∀ r ∈ rows, (r.length : Int) = k) ∧
    (∃ rows, (search lib s queries data k search_L).1 = .ok rows ∧
      ∀ r ∈ rows, (r.length : Int) = k) := by
  have hk0 : 0 ≤ k := le_of_lt hk
  rw [search_opt_aligned lib s queries k search_L hq hk0,
    search_aligned lib s queries data k search_L hq hd hk0]
  refine ⟨⟨_, rfl, ?_⟩, ⟨_, rfl, ?_⟩⟩
  · intro r hr
    obtain ⟨i, _, hi⟩ := List.mem_map.mp hr
    rw [← hi, List.length_map, length_indices_after, Int.toNat_of_nonneg hk0]
  · intro r hr
    obtain ⟨i, _, hi⟩ := List.mem_map.mp hr
    rw [← hi, List.length_map, length_indices_after, Int.toNat_of_nonneg hk0]

/-- C6, amended, at `k = 5` on an index of three points. -/
theorem search_rows_have_k_entries_witness :
    ¬ not_rows_of ⟨[1, 2], [7, 9]⟩ builtObject.dimension ∧
    ¬ not_rows_of ⟨[3, 2], [1, 2, 3, 4, 5, 6]⟩ builtObject.dimension ∧
    (0 : Int) < 5 ∧
    ∃ rows, (search_opt refLibrary builtObject ⟨[1, 2], [7, 9]⟩ 5 10).1 = .ok rows ∧
      ∀ r ∈ rows, (r.length : Int) = 5 :=
  ⟨by decide, by decide, by decide,
    (search_rows_have_k_entries refLibrary builtObject ⟨[1, 2], [7, 9]⟩
      ⟨[3, 2], [1, 2, 3, 4, 5, 6]⟩ 5 10 (by decide) (by decide) (by decide)).1⟩

/-- C7, as stated, fails in one detail: for `search_L = -1` both functions
hand the library `L_search = -1` but `P_search = 4294967295`, the conversion
of `-1` to `unsigned`, so `P_search` is not `search_L`. -/
theorem search_parameters_counterexample :
    ¬ not_rows_of ⟨[1, 2], [7, 9]⟩ builtObject.dimension ∧
    ¬ not_rows_of ⟨[3, 2], [1, 2, 3, 4, 5, 6]⟩ builtObject.dimension ∧
    (search_opt refLibrary builtObject ⟨[1, 2], [7, 9]⟩ 1 (-1)).2.calls =
      builtObject.calls ++
        [.data_align [7, 9] 1 2,
          .SearchWithOptGraph [7, 9, 0, 0, 0, 0, 0, 0] 0 1
            [("L_search", .int (-1)), ("P_search", .unsigned 4294967295)]] ∧
    (search refLibrary builtObject ⟨[1, 2], [7, 9]⟩ ⟨[3, 2], [1, 2, 3, 4, 5, 6]⟩ 1 (-1)).2.calls =
      builtObject.calls ++
        [.data_align [7, 9] 1 2, .data_align [1, 2, 3, 4, 5, 6] 3 2,
          .Search [7, 9, 0, 0, 0, 0, 0, 0] 0
            [1, 2, 0, 0, 0, 0, 0, 0, 3, 4, 0, 0, 0, 0, 0, 0, 5, 6, 0, 0, 0, 0, 0, 0] 1
            [("L_search", .int (-1)), ("P_search", .unsigned 4294967295)]] ∧
    ((4294967295 : Nat) : Int) ≠ -1 :=
  ⟨by decide, by decide, by decide, by decide, by decide⟩

/-- C7, amended: for every query batch, `k`, `search_L` and every data array
of the correct dimension, `search_opt` returns what `search` returns whenever
the library functions `Search` and `SearchWithOptGraph` write the same ids for
the arguments the two functions pass.  For correctly shaped queries and
`k ≥ 0` both make one library call per query row, with the same aligned query
buffer, the same offset `i * aligned_dim`, the same `K = k` and the same
parameters: `L_search = search_L` and `P_search = search_L` converted to
`unsigned`, which is `search_L` itself when `0 ≤ search_L`. -/
theorem search_opt_returns_what_search_returns {ι : Type} (lib : Library ι) (s : State ι)
    (queries data : PyArray) (k search_L : Int) (hd : ¬ not_rows_of data s.dimension)
    (hagree : ∀ i, i < queries.shape.getD 0 0 →
      lib.Search s.index (aligned lib s.dimension queries).1
          (i * (aligned lib s.dimension queries).2) (aligned lib s.dimension data).1 k.toNat
          [("L_search", .int search_L), ("P_search", .unsigned (to_unsigned search_L))]
        = lib.SearchWithOptGraph s.index (aligned lib s.dimension queries).1
          (i * (aligned lib s.dimension queries).2) k.toNat
          [("L_search", .int search_L), ("P_search", .unsigned (to_unsigned search_L))]) :
    (search_opt lib s queries k search_L).1 = (search lib s queries data k search_L).1 ∧
    (¬ not_rows_of queries s.dimension → 0 ≤ k →
      (search_opt lib s queries k search_L).2.calls = s.calls ++
        (align_call s.dimension queries ::
          (List.range (queries.shape.getD 0 0)).map (fun i =>
            LibCall.SearchWithOptGraph (aligned lib s.dimension queries).1
              (i * (aligned lib s.dimension queries).2) k.toNat
              [("L_search", .int search_L), ("P_search", .unsigned (to_unsigned search_L))])) ∧
      (search lib s queries data k search_L).2.calls = s.calls ++
        (align_call s.dimension queries :: align_call s.dimension data ::
          (List.range (queries.shape.getD 0 0)).map (fun i =>
            LibCall.Search (aligned lib s.dimension queries).1
              (i * (aligned lib s.dimension queries).2) (aligned lib s.dimension data).1 k.toNat
              [("L_search", .int search_L), ("P_search", .unsigned (to_unsigned search_L))]))) ∧
    (0 ≤ search_L → search_L < 2 ^ 32 → ((to_unsigned search_L : Nat) : Int) = search_L) := by
  have hfd : shape_mismatch data s.dimension = false :=
    (shape_mismatch_false_iff data s.dimension).mpr hd
  refine ⟨?_, ?_, ?_⟩
  · by_cases hq : shape_mismatch queries s.dimension = true
    · rw [search_opt_bad lib s queries k search_L hq,
        search_bad_queries lib s queries data k search_L hq]
    · have hfq : shape_mismatch queries s.dimension = false := by simpa using hq
      have hvq : ¬ not_rows_of queries s.dimension :=
        (shape_mismatch_false_iff queries s.dimension).mp hfq
      by_cases hk : k < 0
      · rw [search_opt_negative lib s queries k search_L hfq hk,
          search_negative lib s queries data k search_L hfq hfd hk]
      · rw [search_opt_aligned lib s queries k search_L hvq (not_lt.mp hk),
          search_aligned lib s queries data k search_L hvq hd (not_lt.mp hk)]
        show Except.ok _ = Except.ok _
        congr 1
        apply List.map_congr_left
        intro i hi
        rw [hagree i (List.mem_range.mp hi)]
  · intro hvq hk
    rw [search_opt_aligned lib s queries k search_L hvq hk,
      search_aligned lib s queries data k search_L hvq hd hk]
    exact ⟨rfl, rfl⟩
  · intro h0 h1
    unfold to_unsigned
    omega

/-- C7, amended, on an index of three points and two queries. -/
theorem search_opt_returns_what_search_returns_witness :
    ¬ not_rows_of ⟨[3, 2], [1, 2, 3, 4, 5, 6]⟩ builtObject.dimension ∧
    (search_opt refLibrary builtObject ⟨[2, 2], [7, 9, 8, 6]⟩ 2 10).1 =
      (search refLibrary builtObject ⟨[2, 2], [7, 9, 8, 6]⟩ ⟨[3, 2], [1, 2, 3, 4, 5, 6]⟩
        2 10).1 :=
  ⟨by decide,
    (search_opt_returns_what_search_returns refLibrary builtObject ⟨[2, 2], [7, 9, 8, 6]⟩
      ⟨[3, 2], [1, 2, 3, 4, 5, 6]⟩ 2 10 (by decide) (fun _ _ => rfl)).1⟩

/-- C8, as stated, fails: for an object of dimension `2^32` the invariant holds
after construction (`aligned_dimension = 2^32`), and `build_index` with a
zero-row array of second extent `2^32` passes the dimension test, hands
`data_align` the dimension narrowed to `unsigned`, which is 0, and stores 0 in
`aligned_dimension`: less than the dimension, and not the value of the
constructor.  The library used returns the smallest multiple of 8 wherever it
fits the `unsigned` result, and its results are all below `2^32`. -/
theorem aligned_dimension_invariant_counterexample :
    aligns_to_8 refLibrary ∧
    (∀ (data_ori : List Nat) (point_num dim : Nat),
      (refLibrary.data_align data_ori point_num dim).2 < 2 ^ 32) ∧
    (NSGWrapper refLibrary (2 ^ 32) 0 Metric.L2).dimension = 4294967296 ∧
    (NSGWrapper refLibrary (2 ^ 32) 0 Metric.L2).aligned_dimension = 4294967296 ∧
    dim_le_aligned (NSGWrapper refLibrary (2 ^ 32) 0 Metric.L2) ∧
    ¬ not_rows_of ⟨[0, 2 ^ 32], []⟩ (NSGWrapper refLibrary (2 ^ 32) 0 Metric.L2).dimension ∧
    (build_index refLibrary (NSGWrapper refLibrary (2 ^ 32) 0 Metric.L2) ⟨[0, 2 ^ 32], []⟩
      "knn.graph" 40 50 500).1 = .ok () ∧
    (build_index refLibrary (NSGWrapper refLibrary (2 ^ 32) 0 Metric.L2) ⟨[0, 2 ^ 32], []⟩
      "knn.graph" 40 50 500).2.aligned_dimension = 0 ∧
    ¬ dim_le_aligned (build_index refLibrary (NSGWrapper refLibrary (2 ^ 32) 0 Metric.L2)
      ⟨[0, 2 ^ 32], []⟩ "knn.graph" 40 50 500).2 :=
  ⟨refLibrary_aligns_to_8, refLibrary_data_align_lt, by decide, by decide,
    by unfold dim_le_aligned; decide, by decide, rfl, by decide,
    by unfold dim_le_aligned; decide⟩

/-- C8, amended: for an object constructed with a dimension `dim ≤ 2^32 - 8`
(so that `dim` and its aligned value fit the `unsigned` in which `align_data`
hands the dimension to `data_align`), and a library whose `data_align` returns
the smallest multiple of 8 that is at least the dimension it is given, for the
dimensions up to `2^32 - 8`, whose aligned value fits that `unsigned`:
`aligned_dim ≥ dim` holds after construction; every operation preserves it and
leaves `dimension` as it is; after any sequence of operations
`aligned_dimension` is the value the constructor computed and passed to the
index; and that is the value `build_index` stores. -/
theorem aligned_dimension_invariant {ι : Type} (lib : Library ι) (hlib : aligns_to_8 lib)
    (dim num_points : Nat) (metric : Metric) (hdim : dim + 7 < 2 ^ 32) :
    dim_le_aligned (NSGWrapper lib dim num_points metric) ∧
    (NSGWrapper lib dim num_points metric).calls =
      [.IndexNSG (to_size_t (NSGWrapper lib dim num_points metric).aligned_dimension)
        (num_points % 2 ^ 64) metric] ∧
    (∀ (s : State ι) (op : Op), s.dimension + 7 < 2 ^ 32 → dim_le_aligned s →
      dim_le_aligned (op.run lib s) ∧ (op.run lib s).dimension = s.dimension) ∧
    (∀ ops : List Op,
      (run_ops lib (NSGWrapper lib dim num_points metric) ops).dimension = (dim : Int) ∧
      (run_ops lib (NSGWrapper lib dim num_points metric) ops).aligned_dimension =
        (NSGWrapper lib dim num_points metric).aligned_dimension ∧
      dim_le_aligned (run_ops lib (NSGWrapper lib dim num_points metric) ops)) ∧
    (∀ (ops : List Op) (data : PyArray) (knng_path : String) (L R C : Int),
      ¬ not_rows_of data (dim : Int) →
      (build_index lib (run_ops lib (NSGWrapper lib dim num_points metric) ops) data knng_path
        L R C).2.aligned_dimension = (NSGWrapper lib dim num_points metric).aligned_dimension) := by
  have hc := constructor_dimension lib dim num_points metric (by omega)
  have hruns := fun ops => run_ops_fields lib hlib dim hdim ops
    (NSGWrapper lib dim num_points metric) hc.1 hc.2
  refine ⟨?_, rfl, ?_, ?_, ?_⟩
  · unfold dim_le_aligned
    rw [hc.1, hc.2]
    omega
  · intro s op hs hinv
    have hf := op_run_fields lib s op
    refine ⟨?_, hf.1⟩
    unfold dim_le_aligned at hinv ⊢
    rcases hf.2 with h | ⟨data, _, _, _, _, _, hv, h⟩
    · rw [hf.1, h]; exact hinv
    · have ha := aligned_dim_of_aligns_to_8 lib hlib s.dimension data hv hs
      rw [hf.1, h, ha.2]
      have := ha.1
      omega
  · intro ops
    obtain ⟨h1, h2⟩ := hruns ops
    refine ⟨h1, by rw [h2, hc.2], ?_⟩
    unfold dim_le_aligned
    rw [h1, h2]
    omega
  · intro ops data knng_path L R C hv
    obtain ⟨h1, h2⟩ := hruns ops
    have hv2 : ¬ not_rows_of data
        (run_ops lib (NSGWrapper lib dim num_points metric) ops).dimension := by
      rw [h1]; exact hv
    rw [build_index_ok lib _ data knng_path L R C
      ((shape_mismatch_false_iff data _).mpr hv2)]
    have ha := aligned_dim_of_aligns_to_8 lib hlib _ data hv2 (by rw [h1]; omega)
    show (((aligned lib _ data).2 : Nat) : Int) = _
    rw [ha.2, h1, hc.2]
    simp

/-- C8, amended, at `dim = 10`, with a library whose `data_align` computes in
`unsigned`: the invariant holds after construction, and `build_index` stores
16, the value of the constructor. -/
theorem aligned_dimension_invariant_witness :
    aligns_to_8 refLibrary ∧ 10 + 7 < 2 ^ 32 ∧
    dim_le_aligned (NSGWrapper refLibrary 10 5 Metric.L2) ∧
    (∀ (data : PyArray) (knng_path : String) (L R C : Int),
      ¬ not_rows_of data ((10 : Nat) : Int) →
      (build_index refLibrary (run_ops refLibrary (NSGWrapper refLibrary 10 5 Metric.L2) [])
        data knng_path L R C).2.aligned_dimension =
        (NSGWrapper refLibrary 10 5 Metric.L2).aligned_dimension) ∧
    (NSGWrapper refLibrary 10 5 Metric.L2).aligned_dimension = 16 :=
  ⟨refLibrary_aligns_to_8, by norm_num,
    (aligned_dimension_invariant refLibrary refLibrary_aligns_to_8 10 5 Metric.L2
      (by norm_num)).1,
    (aligned_dimension_invariant refLibrary refLibrary_aligns_to_8 10 5 Metric.L2
      (by norm_num)).2.2.2.2 [],
    by decide⟩

/-- C10: what `search_opt` and `search` return for an id is its conversion from
32-bit unsigned to `int`.  For correctly shaped arrays and `k ≥ 0`, whenever
position `j` of `indices` holds the id `u` after the library call for query
`i`, entry `j` of the returned row `i` is `u` if `u < 2^31`, and is
`u - 2^32`, a negative number, if `u ≥ 2^31`; so the entry is `u` exactly for
the ids below `2^31`, and a row whose ids all lie in `[0, n)` with `n ≤ 2^31`
is returned unchanged.  The loop that stores a row is the conversion of each
id of `indices`. -/
theorem search_rows_convert_ids {ι : Type} (lib : Library ι) (s : State ι)
    (queries data : PyArray) (k search_L : Int)
    (hq : ¬ not_rows_of queries s.dimension) (hd : ¬ not_rows_of data s.dimension)
    (hk : 0 ≤ k) :
    (∃ rows, (search_opt lib s queries k search_L).1 = .ok rows ∧
      ∀ i, i < queries.shape.getD 0 0 →
        ∃ row, rows[i]? = some row ∧
          (∀ j u : Nat,
            (indices_after k.toNat
              (lib.SearchWithOptGraph s.index (aligned lib s.dimension queries).1
                (i * (aligned lib s.dimension queries).2) k.toNat
                [("L_search", .int search_L),
                  ("P_search", .unsigned (to_unsigned search_L))]))[j]? = some u →
            u < 2 ^ 32 ∧
            (u < 2 ^ 31 → row[j]? = some (u : Int)) ∧
            (2 ^ 31 ≤ u → row[j]? = some ((u : Int) - 2 ^ 32) ∧ (u : Int) - 2 ^ 32 < 0) ∧
            (row[j]? = some (u : Int) ↔ u < 2 ^ 31)) ∧
          (∀ n, n ≤ 2 ^ 31 →
            (∀ v ∈ indices_after k.toNat
              (lib.SearchWithOptGraph s.index (aligned lib s.dimension queries).1
                (i * (aligned lib s.dimension queries).2) k.toNat
                [("L_search", .int search_L),
                  ("P_search", .unsigned (to_unsigned search_L))]), v < n) →
            row = (indices_after k.toNat
              (lib.SearchWithOptGraph s.index (aligned lib s.dimension queries).1
                (i * (aligned lib s.dimension queries).2) k.toNat
                [("L_search", .int search_L),
                  ("P_search", .unsigned (to_unsigned search_L))])).map
              (fun (v : Nat) => (v : Int)))) ∧
    (∃ rows, (search lib s queries data k search_L).1 = .ok rows ∧
      ∀ i, i < queries.shape.getD 0 0 →
        ∃ row, rows[i]? = some row ∧
          (∀ j u : Nat,
            (indices_after k.toNat
              (lib.Search s.index (aligned lib s.dimension queries).1
                (i * (aligned lib s.dimension queries).2) (aligned lib s.dimension data).1
                k.toNat
                [("L_search", .int search_L),
                  ("P_search", .unsigned (to_unsigned search_L))]))[j]? = some u →
            u < 2 ^ 32 ∧
            (u < 2 ^ 31 → row[j]? = some (u : Int)) ∧
            (2 ^ 31 ≤ u → row[j]? = some ((u : Int) - 2 ^ 32) ∧ (u : Int) - 2 ^ 32 < 0) ∧
            (row[j]? = some (u : Int) ↔ u < 2 ^ 31)) ∧
          (∀ n, n ≤ 2 ^ 31 →
            (∀ v ∈ indices_after k.toNat
              (lib.Search s.index (aligned lib s.dimension queries).1
                (i * (aligned lib s.dimension queries).2) (aligned lib s.dimension data).1
                k.toNat
                [("L_search", .int search_L),
                  ("P_search", .unsigned (to_unsigned search_L))]), v < n) →
            row = (indices_after k.toNat
              (lib.Search s.index (aligned lib s.dimension queries).1
                (i * (aligned lib s.dimension queries).2) (aligned lib s.dimension data).1
                k.toNat
                [("L_search", .int search_L),
                  ("P_search", .unsigned (to_unsigned search_L))])).map
              (fun (v : Nat) => (v : Int)))) ∧
    (∀ (indices : List Nat) (j u : Nat), (∀ v ∈ indices, v < 2 ^ 32) →
      indices[j]? = some u →
      (store_row indices indices.length (List.replicate indices.length 0))[j]? =
        some (if u < 2 ^ 31 then (u : Int) else (u : Int) - 2 ^ 32)) := by
  rw [search_opt_aligned lib s queries k search_L hq hk,
    search_aligned lib s queries data k search_L hq hd hk]
  refine ⟨⟨_, rfl, ?_⟩, ⟨_, rfl, ?_⟩, ?_⟩
  · intro i hi
    refine ⟨_, getElem?_map_range _ _ i hi, ?_, ?_⟩
    · intro j u hju
      exact converted_entry _ (indices_after_lt _ _) j u hju
    · intro n hn hall
      exact converted_row_small _ n hn hall
  · intro i hi
    refine ⟨_, getElem?_map_range _ _ i hi, ?_, ?_⟩
    · intro j u hju
      exact converted_entry _ (indices_after_lt _ _) j u hju
    · intro n hn hall
      exact converted_row_small _ n hn hall
  · intro indices j u hall hju
    rw [store_row_eq]
    have hc := converted_entry indices hall j u hju
    by_cases hlt : u < 2 ^ 31
    · rw [if_pos hlt]; exact hc.2.1 hlt
    · rw [if_neg hlt]; exact (hc.2.2.1 (by omega)).1

/-- C10 on a library that writes the ids `2^32 - 1` and 7: `search_opt` and
`search` return them as `-1` and 7. -/
theorem search_rows_convert_ids_witness :
    ¬ not_rows_of ⟨[1, 2], [7, 9]⟩ builtObject.dimension ∧
    ¬ not_rows_of ⟨[3, 2], [1, 2, 3, 4, 5, 6]⟩ builtObject.dimension ∧
    (0 : Int) ≤ 2 ∧
    (∃ rows, (search_opt wideIdLibrary builtObject ⟨[1, 2], [7, 9]⟩ 2 10).1 = .ok rows) ∧
    (search_opt wideIdLibrary builtObject ⟨[1, 2], [7, 9]⟩ 2 10).1 = .ok [[-1, 7]] ∧
    (search wideIdLibrary builtObject ⟨[1, 2], [7, 9]⟩ ⟨[3, 2], [1, 2, 3, 4, 5, 6]⟩ 2 10).1 =
      .ok [[-1, 7]] :=
  ⟨by decide, by decide, by decide,
    (search_rows_convert_ids wideIdLibrary builtObject ⟨[1, 2], [7, 9]⟩
      ⟨[3, 2], [1, 2, 3, 4, 5, 6]⟩ 2 10 (by decide) (by decide) (by decide)).1.elim
      (fun rows h => ⟨rows, h.1⟩),
    rfl, rfl⟩

end NSGWrapper
